import Mathlib

/-!
Shallow embedding of the multiplayer lobby service of bbb-banana-runner
(`createMultiplayerService` in the services/multiplayer module) together with
theorems checking the natural-language specification against it.

The service is a closure over the mutable variables `currentLobby`,
`lobbyPlayers`, `lobbySubscription`, `playersSubscription`, `isHost`; the
Supabase client additionally tracks the set of realtime channels that have been
subscribed.  We embed that closure state as the structure `MPState` (the field
`openChannels` models the client's channel registry, keyed by topic string) and
each service function as a pure function from the state and the store's
responses to the new state, the store writes it issues, the consumer callbacks
it fires and the console lines it logs.  The external Supabase client is
assumed present (the factory received it), so the `!supabaseClient` guards are
always passed; the `!playerId` style guards are modelled by `Option String`
arguments where `none` stands for a missing/falsy id.
-/

namespace Multiplayer

/-- Lobby status values used by the service: 'waiting' and 'playing' are
written by the code, 'ended' stands for any other terminal value an external
collaborator may write. -/
inductive Status
  | waiting
  | playing
  | ended
  deriving DecidableEq, Repr

/-- A row of the game_lobbies table, restricted to the columns the service
reads or writes (id, code, host_id, land, status). -/
structure LobbyRow where
  id : Nat
  code : String
  host_id : String
  land : String
  status : Status
  deriving DecidableEq, Repr

/-- A row of the lobby_players table, restricted to the columns the service
reads (player_id, is_ready). -/
structure PlayerRow where
  player_id : String
  is_ready : Bool
  deriving DecidableEq, Repr

/-- Store mutations the service can issue against the Supabase tables. -/
inductive StoreWrite
  | insertLobby (code host land : String) (status : Status)
  | insertMembership (lobbyId : Nat) (playerId : String) (isReady : Bool)
  | updateStatus (lobbyId : Nat) (status : Status)
  | updateReady (lobbyId : Nat) (playerId : String) (isReady : Bool)
  | deleteMembership (lobbyId : Nat) (playerId : String)
  | deleteLobby (lobbyId : Nat)
  deriving DecidableEq, Repr

/-- Consumer-facing callback invocations (onLobbyUpdate, onPlayersUpdate,
onGameStart).  onOpponentScore is modelled separately with its payload type. -/
inductive ConsumerEvent
  | lobbyUpdate (lobby : Option LobbyRow)
  | playersUpdate (players : List PlayerRow)
  | gameStart
  deriving DecidableEq, Repr

/-- Errors a Supabase call can report; the service itself never branches on
which one it got, only on presence of an error. -/
inductive StoreError
  | conflict
  | unavailable
  | notFound
  deriving DecidableEq, Repr

/-- Topic of the lobby change-feed channel: lobby:{lobbyId}. -/
def lobbyTopic (lobbyId : Nat) : String := "lobby:" ++ toString lobbyId

/-- Topic of the players change-feed channel: lobby_players:{lobbyId}. -/
def playersTopic (lobbyId : Nat) : String := "lobby_players:" ++ toString lobbyId

/-- Topic of the broadcast game-state channel: game:{lobbyId}. -/
def gameTopic (lobbyId : Nat) : String := "game:" ++ toString lobbyId

/-- The closure state of createMultiplayerService plus the client's registry of
subscribed realtime channels (by topic). -/
structure MPState where
  currentLobby : Option LobbyRow
  lobbyPlayers : List PlayerRow
  lobbySubscription : Option String
  playersSubscription : Option String
  isHost : Bool
  openChannels : List String
  deriving DecidableEq, Repr

/-- supabaseClient.removeChannel(handle): drops the channel from the client's
registry; a null handle removes nothing. -/
def removeChannel (channels : List String) (handle : Option String) : List String :=
  match handle with
  | some t => channels.filter (fun c => c ≠ t)
  | none => channels

/-- The unsubscribe function of the service: removes the lobby change-feed
channel and the players change-feed channel from the client when their handles
are non-null, and nulls both handles.  No other channel is touched. -/
def unsubscribe (s : MPState) : MPState :=
  { s with
    openChannels := removeChannel (removeChannel s.openChannels s.lobbySubscription)
      s.playersSubscription,
    lobbySubscription := none,
    playersSubscription := none }

/-- subscribeToLobby: tears down the current subscriptions via unsubscribe,
then opens and stores the lobby change-feed channel and the players change-feed
channel for the given lobby id.  (The handlers it installs are modelled by
handleLobbyChange below; the initial refreshPlayers load is a read, not a
write, and is not part of this state transition.) -/
def subscribeToLobby (s : MPState) (lobbyId : Nat) : MPState :=
  let s1 := unsubscribe s
  { s1 with
    lobbySubscription := some (lobbyTopic lobbyId),
    playersSubscription := some (playersTopic lobbyId),
    openChannels := s1.openChannels ++ [lobbyTopic lobbyId, playersTopic lobbyId] }

/-- listenForOpponentState: when a lobby is active, subscribes the broadcast
channel game:{lobby.id} on the client.  The channel handle is not stored in any
service variable. -/
def listenForOpponentState (s : MPState) : MPState :=
  match s.currentLobby with
  | some l => { s with openChannels := s.openChannels ++ [gameTopic l.id] }
  | none => s

/-- checkAllReady: returns the store write the call issues, if any.  The code
reads only isHost, lobbyPlayers and currentLobby.id; it returns early unless
this process is host and at least 2 players are cached, then folds is_ready
over the snapshot and, when all are ready, updates the lobby row to status
'playing'.  When currentLobby is null the JS would throw on currentLobby.id
before reaching the store, so no write is issued in that case either. -/
def checkAllReady (s : MPState) : Option StoreWrite :=
  if !s.isHost || s.lobbyPlayers.length < 2 then none
  else if s.lobbyPlayers.all (fun p => p.is_ready) then
    match s.currentLobby with
    | some l => some (StoreWrite.updateStatus l.id Status.playing)
    | none => none
  else none

/-- Character for base-36 digit d as produced by JS Number.prototype.toString(36):
0-9 then lowercase a-z. -/
def base36Char (d : Nat) : Char :=
  if d < 10 then Char.ofNat (48 + d) else Char.ofNat (87 + d)

/-- Math.random().toString(36) for a draw r in the interval [0,1), the draw
being represented by the list of base-36 fractional digits JS prints for it:
the result is the string "0" when r = 0 (empty digit list) and otherwise "0."
followed by the digit characters (JS prints no trailing zero digit). -/
def randomToString36 (digits : List Nat) : String :=
  if digits.isEmpty then String.mk ['0']
  else String.mk ('0' :: '.' :: digits.map base36Char)

/-- JS String.prototype.substring(2, 8): the characters at indices 2 to 7,
clamped to the string's length. -/
def jsSubstring28 (s : String) : String :=
  String.mk ((s.data.drop 2).take 6)

/-- JS String.prototype.toUpperCase restricted to the ASCII output alphabet of
toString(36). -/
def jsToUpperCase (s : String) : String :=
  String.mk (s.data.map Char.toUpper)

/-- generateLobbyCode: Math.random().toString(36).substring(2, 8).toUpperCase(),
with the random draw represented by its printed fractional digits. -/
def generateLobbyCode (digits : List Nat) : String :=
  jsToUpperCase (jsSubstring28 (randomToString36 digits))

/-- Character class of the claimed code alphabet: uppercase ASCII letter or
decimal digit. -/
def isUpperAlnum (c : Char) : Bool :=
  (65 ≤ c.toNat && c.toNat ≤ 90) || (48 ≤ c.toNat && c.toNat ≤ 57)

/-- The payload a postgres_changes notification on game_lobbies delivers to the
handler: the field `new` holds the new row for an insert or update and is
absent (none) for a delete notification. -/
structure LobbyChangePayload where
  new : Option LobbyRow
  deriving DecidableEq, Repr

/-- The lobby change-feed handler installed by subscribeToLobby: when
payload.new is present it caches the row as currentLobby, fires onLobbyUpdate
with it and fires onGameStart when its status is 'playing'.  When payload.new
is absent (a delete notification) the guard fails and the handler does
nothing. -/
def handleLobbyChange (s : MPState) (p : LobbyChangePayload) :
    MPState × List ConsumerEvent :=
  match p.new with
  | some row =>
      ({ s with currentLobby := some row },
        ConsumerEvent.lobbyUpdate (some row) ::
          (if row.status = Status.playing then [ConsumerEvent.gameStart] else []))
  | none => (s, [])

/-- Deliver a list of lobby change-feed payloads in order through the handler,
accumulating the consumer events fired. -/
def deliverLobbyChanges (s : MPState) : List LobbyChangePayload → MPState × List ConsumerEvent
  | [] => (s, [])
  | p :: ps =>
      let r1 := handleLobbyChange s p
      let r2 := deliverLobbyChanges r1.1 ps
      (r2.1, r1.2 ++ r2.2)

/-- Number of onGameStart invocations among a list of fired consumer events. -/
def countGameStart (evs : List ConsumerEvent) : Nat :=
  evs.countP (fun e => e == ConsumerEvent.gameStart)

/-- leaveLobby: with an active lobby and a truthy playerId, deletes the
caller's membership row, additionally deletes the lobby row when this process
is host, then unsubscribes the two change-feed channels, clears currentLobby,
lobbyPlayers and isHost, and fires onLobbyUpdate(null) and onPlayersUpdate([])
locally.  Returns (new state, store writes issued, consumer events fired).
With no active lobby or a falsy playerId it returns early and does nothing. -/
def leaveLobby (s : MPState) (playerId : Option String) :
    MPState × List StoreWrite × List ConsumerEvent :=
  match s.currentLobby, playerId with
  | some l, some pid =>
      let writes := StoreWrite.deleteMembership l.id pid ::
        (if s.isHost then [StoreWrite.deleteLobby l.id] else [])
      let s1 := unsubscribe s
      ({ s1 with currentLobby := none, lobbyPlayers := [], isHost := false },
        writes,
        [ConsumerEvent.lobbyUpdate none, ConsumerEvent.playersUpdate []])
  | _, _ => (s, [], [])

/-- The ready flag the locally cached snapshot records for a participant;
false when the participant is absent (currentPlayer?.is_ready on undefined). -/
def cachedReady (s : MPState) (pid : String) : Bool :=
  match s.lobbyPlayers.find? (fun p => p.player_id == pid) with
  | some p => p.is_ready
  | none => false

/-- toggleReady: with an active lobby and a truthy playerId, looks the
participant up in the locally cached lobbyPlayers snapshot, negates the found
is_ready flag (absence reads as undefined, so the negation is true), writes
that value to the participant's membership row and returns it.  Otherwise
returns false with no write.  Result: (store write issued, returned value). -/
def toggleReady (s : MPState) (playerId : Option String) : Option StoreWrite × Bool :=
  match s.currentLobby, playerId with
  | some l, some pid =>
      let newReady := !(cachedReady s pid)
      (some (StoreWrite.updateReady l.id pid newReady), newReady)
  | _, _ => (none, false)

/-- A broadcast game_state payload as seen by the listener: an optional
playerId field (none models a payload without such a field, i.e. undefined)
together with the rest of the payload, of arbitrary shape α. -/
structure GameStatePayload (α : Type) where
  playerId : Option String
  rest : α
  deriving DecidableEq, Repr

/-- The broadcast handler installed by listenForOpponentState for a listener id
selfId: it forwards payload.payload to onOpponentScore exactly when
payload.payload.playerId !== selfId (JS strict inequality over
string-or-undefined values), and drops the message otherwise.  Result: the
payload passed to onOpponentScore, if any. -/
def opponentStateHandler {α : Type} (selfId : Option String)
    (p : GameStatePayload α) : Option (GameStatePayload α) :=
  if p.playerId ≠ selfId then some p else none

/-- joinLobby: inserts the membership row for the player.  A store error on
the insert is only written to the console log; the function returns no error
value, so the caller cannot observe the failure.  Result: (store writes
issued, console lines logged). -/
def joinLobby (lobbyId : Nat) (playerId : String) (insertError : Option StoreError) :
    List StoreWrite × List String :=
  ([StoreWrite.insertMembership lobbyId playerId false],
    match insertError with
    | some _ => ["Error joining lobby:"]
    | none => [])

/-- The store's responses to the calls a create/join path makes: the
game_lobbies insert of createLobby and the lobby_players insert of
joinLobby. -/
structure StoreBehavior where
  lobbyInsert : Except StoreError LobbyRow
  membershipInsert : Option StoreError
  deriving Repr

/-- Result of a lobby lifecycle call: the value returned to the caller, the
new service state, the store writes issued, the consumer events fired and the
console lines logged. -/
structure CallOutcome where
  result : Option LobbyRow
  state : MPState
  writes : List StoreWrite
  events : List ConsumerEvent
  log : List String
  deriving Repr

/-- createLobby: with a truthy hostId, generates one join code from the random
draw and issues one insert of the lobby row.  On any store error it logs and
returns null — there is no second draw and no retry.  On success it caches the
row, sets isHost, joins as host via joinLobby (whose error, if any, is only
logged), subscribes to the lobby and fires onLobbyUpdate. -/
def createLobby (s : MPState) (hostId : Option String) (land : String)
    (randomDigits : List Nat) (store : StoreBehavior) : CallOutcome :=
  match hostId with
  | none => { result := none, state := s, writes := [], events := [], log := [] }
  | some hid =>
    let req := StoreWrite.insertLobby (generateLobbyCode randomDigits) hid land Status.waiting
    match store.lobbyInsert with
    | Except.error _ =>
        { result := none, state := s, writes := [req], events := [],
          log := ["Error creating lobby:"] }
    | Except.ok row =>
        let s1 := { s with currentLobby := some row, isHost := true }
        let jl := joinLobby row.id hid store.membershipInsert
        let s2 := subscribeToLobby s1 row.id
        { result := some row, state := s2, writes := req :: jl.1,
          events := [ConsumerEvent.lobbyUpdate (some row)], log := jl.2 }

/-- findOrCreateLobby: with a truthy playerId, queries for the oldest waiting
lobby not hosted by this player (the query's data is the `existing` argument).
When one is found it is cached with isHost = false, joinLobby inserts the
membership row (an insert error is only logged), the subscriptions are
established and the lobby is returned.  Otherwise it falls back to
createLobby. -/
def findOrCreateLobby (s : MPState) (playerId : Option String) (land : String)
    (existing : List LobbyRow) (store : StoreBehavior)
    (randomDigits : List Nat) : CallOutcome :=
  match playerId with
  | none => { result := none, state := s, writes := [], events := [], log := [] }
  | some pid =>
    match existing with
    | [] => createLobby s (some pid) land randomDigits store
    | lobby :: _ =>
        let s1 := { s with currentLobby := some lobby, isHost := false }
        let jl := joinLobby lobby.id pid store.membershipInsert
        let s2 := subscribeToLobby s1 lobby.id
        { result := some lobby, state := s2, writes := jl.1,
          events := [ConsumerEvent.lobbyUpdate (some lobby)], log := jl.2 }

/-- Does a lobby change-feed payload carry a present new row with status
'playing'? -/
def isPlayingPayload (p : LobbyChangePayload) : Bool :=
  match p.new with
  | some row => row.status == Status.playing
  | none => false

/-- A concrete waiting lobby used for concrete evaluations. -/
def sampleLobby : LobbyRow :=
  { id := 1, code := "ABC123", host_id := "h", land := "snow", status := Status.waiting }

/-- The same lobby row after the status update to 'playing'. -/
def samplePlayingLobby : LobbyRow :=
  { sampleLobby with status := Status.playing }

/-- Host-side state: lobby 1 active, this process is host, both members
ready. -/
def hostReadyState : MPState :=
  { currentLobby := some sampleLobby,
    lobbyPlayers := [{ player_id := "h", is_ready := true }, { player_id := "g", is_ready := true }],
    lobbySubscription := some (lobbyTopic 1),
    playersSubscription := some (playersTopic 1),
    isHost := true,
    openChannels := [lobbyTopic 1, playersTopic 1] }

/-- The host-side state after the lobby row has reached status 'playing',
with both members still marked ready in the cached snapshot. -/
def hostPlayingReadyState : MPState :=
  { hostReadyState with currentLobby := some samplePlayingLobby }

/-- Guest-side state: lobby 1 active, this process is not host. -/
def guestState : MPState :=
  { currentLobby := some sampleLobby,
    lobbyPlayers := [{ player_id := "h", is_ready := true }, { player_id := "g", is_ready := true }],
    lobbySubscription := some (lobbyTopic 1),
    playersSubscription := some (playersTopic 1),
    isHost := false,
    openChannels := [lobbyTopic 1, playersTopic 1] }

/-- Characterization of checkAllReady with an active lobby: it is exactly the
guarded status update. -/
theorem checkAllReady_eq (s : MPState) (l : LobbyRow)
    (h : s.currentLobby = some l) :
    checkAllReady s =
      if s.isHost = true ∧ 2 ≤ s.lobbyPlayers.length ∧
          (∀ p ∈ s.lobbyPlayers, p.is_ready = true)
      then some (StoreWrite.updateStatus l.id Status.playing) else none := by
  unfold checkAllReady
  rw [h]
  cases hh : s.isHost with
  | false => simp
  | true =>
      by_cases hl : s.lobbyPlayers.length < 2
      · have h2 : ¬ (2 ≤ s.lobbyPlayers.length) := by omega
        simp [hl, h2]
      · have h2 : 2 ≤ s.lobbyPlayers.length := by omega
        cases hr : s.lobbyPlayers.all (fun p => p.is_ready) with
        | true =>
            simp [hl, h2]
            exact List.all_eq_true.mp hr
        | false =>
            have hne : ¬ (∀ p ∈ s.lobbyPlayers, p.is_ready = true) := fun hc => by
              simp [List.all_eq_true.mpr hc] at hr
            simp [hl, hne]

/-- C1: on any locally cached membership snapshot, checkAllReady issues the
store update setting the lobby status to 'playing' if and only if this process
is host, the snapshot has at least 2 members and every member's ready flag is
true; in every other case it issues no write at all. -/
theorem checkAllReady_write_iff (s : MPState) (l : LobbyRow)
    (h : s.currentLobby = some l) :
    (checkAllReady s = some (StoreWrite.updateStatus l.id Status.playing) ↔
      (s.isHost = true ∧ 2 ≤ s.lobbyPlayers.length ∧
        ∀ p ∈ s.lobbyPlayers, p.is_ready = true)) ∧
    ((s.isHost = true ∧ 2 ≤ s.lobbyPlayers.length ∧
        ∀ p ∈ s.lobbyPlayers, p.is_ready = true) ∨
      checkAllReady s = none) := by
  rw [checkAllReady_eq s l h]
  by_cases hc : s.isHost = true ∧ 2 ≤ s.lobbyPlayers.length ∧
      (∀ p ∈ s.lobbyPlayers, p.is_ready = true)
  · rw [if_pos hc]
    exact ⟨⟨fun _ => hc, fun _ => rfl⟩, Or.inl hc⟩
  · rw [if_neg hc]
    refine ⟨⟨fun hcontra => Option.noConfusion hcontra, fun hcc => absurd hcc hc⟩, Or.inr rfl⟩

/-- Witness for checkAllReady_write_iff at a concrete two-member all-ready
host state. -/
theorem checkAllReady_write_iff_witness :
    checkAllReady hostReadyState = some (StoreWrite.updateStatus 1 Status.playing) :=
  ((checkAllReady_write_iff hostReadyState sampleLobby rfl).1).mpr
    ⟨rfl, by decide, by decide⟩

/-- C2 counterexample: with the current lobby status already 'playing', a
re-invoked checkAllReady still issues the status update (the guard never reads
the status), refuting the claim that it performs no write in that case. -/
theorem checkAllReady_playing_rewrites_cex :
    hostPlayingReadyState.currentLobby = some samplePlayingLobby ∧
    samplePlayingLobby.status = Status.playing ∧
    checkAllReady hostPlayingReadyState = some (StoreWrite.updateStatus 1 Status.playing) := by
  decide

/-- C2 amended: checkAllReady does not consult the current lobby status; even
when the status is already 'playing', a re-invocation re-issues the
status-'playing' update whenever this process is host, the snapshot has at
least 2 members and all are ready. -/
theorem checkAllReady_ignores_status (s : MPState) (l : LobbyRow)
    (h : s.currentLobby = some l) (_hstatus : l.status = Status.playing)
    (hhost : s.isHost = true) (hlen : 2 ≤ s.lobbyPlayers.length)
    (hready : ∀ p ∈ s.lobbyPlayers, p.is_ready = true) :
    checkAllReady s = some (StoreWrite.updateStatus l.id Status.playing) := by
  have hall : s.lobbyPlayers.all (fun p => p.is_ready) = true :=
    List.all_eq_true.mpr hready
  have hl2 : ¬ s.lobbyPlayers.length < 2 := by omega
  simp [checkAllReady, h, hhost, hall, hl2]

/-- Witness for checkAllReady_ignores_status at the concrete already-playing
host state. -/
theorem checkAllReady_ignores_status_witness :
    checkAllReady hostPlayingReadyState = some (StoreWrite.updateStatus 1 Status.playing) :=
  checkAllReady_ignores_status hostPlayingReadyState samplePlayingLobby rfl rfl rfl
    (by decide) (by decide)

/-- C3 counterexample: delivering the same status-'playing' lobby change-feed
payload twice to the handler fires onGameStart twice, refuting "at most one
invocation" under re-delivery. -/
theorem onGameStart_redelivery_cex :
    countGameStart (deliverLobbyChanges guestState
      [{ new := some samplePlayingLobby }, { new := some samplePlayingLobby }]).2 = 2 := by
  decide

/-- C3 amended: the handler has no once-guard — over any delivered sequence of
lobby change-feed payloads, onGameStart fires exactly once per payload whose
new row is present with status 'playing'. -/
theorem countGameStart_eq_playing_deliveries (s : MPState)
    (ps : List LobbyChangePayload) :
    countGameStart (deliverLobbyChanges s ps).2 = ps.countP isPlayingPayload := by
  induction ps generalizing s with
  | nil => rfl
  | cons p ps ih =>
      have hstep : countGameStart (deliverLobbyChanges s (p :: ps)).2 =
          countGameStart (handleLobbyChange s p).2 +
            countGameStart (deliverLobbyChanges (handleLobbyChange s p).1 ps).2 := by
        simp [deliverLobbyChanges, countGameStart, List.countP_append]
      have hhead : countGameStart (handleLobbyChange s p).2 =
          if isPlayingPayload p then 1 else 0 := by
        cases hp : p.new with
        | none =>
            simp [handleLobbyChange, hp, countGameStart, isPlayingPayload]
        | some row =>
            by_cases hrow : row.status = Status.playing <;>
              simp [handleLobbyChange, hp, hrow, countGameStart, isPlayingPayload,
                List.countP_cons, beq_iff_eq]
      rw [hstep, hhead, ih, List.countP_cons]
      exact Nat.add_comm _ _

/-- Fresh service state before any lobby is joined. -/
def idleState : MPState :=
  { currentLobby := none, lobbyPlayers := [], lobbySubscription := none,
    playersSubscription := none, isHost := false, openChannels := [] }

/-- Guest state after additionally calling listenForOpponentState: the
broadcast channel game:1 is subscribed on the client. -/
def guestListeningState : MPState := listenForOpponentState guestState

/-- C4: evaluation at the failing scenario — the host's leaveLobby does delete
the lobby row, but the change-feed handler of any subscribed guest process,
receiving the delete notification (payload.new absent), fires no consumer
event at all; in particular onLobbyUpdate(null) is never observed via the
change feed. -/
theorem hostLeave_guest_no_null_observation :
    (leaveLobby hostReadyState (some "h")).2.1 =
      [StoreWrite.deleteMembership 1 "h", StoreWrite.deleteLobby 1] ∧
    (∀ s : MPState, handleLobbyChange s { new := none } = (s, [])) := by
  exact ⟨by decide, fun s => rfl⟩

/-- C5: evaluation at the failing scenario — after leaveLobby the local
context and the two change-feed subscriptions are cleared, but the broadcast
channel game:1 opened by listenForOpponentState is still subscribed: the
service never stored its handle, and unsubscribe (called by leaveLobby)
removes only the two change-feed channels. -/
theorem leaveLobby_leaks_broadcast_channel :
    (leaveLobby guestListeningState (some "g")).1.currentLobby = none ∧
    (leaveLobby guestListeningState (some "g")).1.lobbyPlayers = [] ∧
    (leaveLobby guestListeningState (some "g")).1.isHost = false ∧
    (leaveLobby guestListeningState (some "g")).1.lobbySubscription = none ∧
    (leaveLobby guestListeningState (some "g")).1.playersSubscription = none ∧
    gameTopic 1 ∈ (leaveLobby guestListeningState (some "g")).1.openChannels := by
  decide

/-- C6 counterexample: the draw r = 1/2 prints as "0.i" in base 36, so
generateLobbyCode returns the 1-character string "I", not 6 characters. -/
theorem generateLobbyCode_length_cex :
    (∀ d ∈ ([18] : List Nat), d < 36) ∧ generateLobbyCode [18] = "I" ∧
      (generateLobbyCode [18]).length ≠ 6 := by
  decide

/-- The characters of a generated code are the first six printed digits of the
draw, uppercased. -/
theorem generateLobbyCode_data (digits : List Nat) :
    (generateLobbyCode digits).data =
      (digits.take 6).map (fun d => Char.toUpper (base36Char d)) := by
  cases digits with
  | nil => rfl
  | cons d ds =>
      simp [generateLobbyCode, randomToString36, jsSubstring28, jsToUpperCase,
        List.map_take, List.map_map]
      rfl

/-- Each base-36 digit character, uppercased, is an uppercase letter or a
decimal digit. -/
theorem base36Char_upper_alnum (d : Nat) (hd : d < 36) :
    isUpperAlnum (Char.toUpper (base36Char d)) = true := by
  interval_cases d <;> decide

/-- C6 amended: generateLobbyCode returns a string whose characters are all
uppercase letters or digits and whose length is min 6 (number of printed
base-36 fraction digits of the draw) — exactly 6 only when the draw prints at
least 6 fractional digits. -/
theorem generateLobbyCode_spec (digits : List Nat) (hd : ∀ d ∈ digits, d < 36) :
    (generateLobbyCode digits).length = min 6 digits.length ∧
      ∀ c ∈ (generateLobbyCode digits).data, isUpperAlnum c = true := by
  constructor
  · have hlen : (generateLobbyCode digits).length = (generateLobbyCode digits).data.length := rfl
    rw [hlen, generateLobbyCode_data, List.length_map, List.length_take]
  · intro c hc
    rw [generateLobbyCode_data] at hc
    rcases List.mem_map.mp hc with ⟨d, hdmem, rfl⟩
    exact base36Char_upper_alnum d (hd d (List.take_subset 6 digits hdmem))

/-- Witness for generateLobbyCode_spec at a concrete 7-digit draw. -/
theorem generateLobbyCode_spec_witness :
    (generateLobbyCode [10, 0, 35, 9, 2, 28, 7]).length =
        min 6 ([10, 0, 35, 9, 2, 28, 7] : List Nat).length ∧
      ∀ c ∈ (generateLobbyCode [10, 0, 35, 9, 2, 28, 7]).data, isUpperAlnum c = true :=
  generateLobbyCode_spec [10, 0, 35, 9, 2, 28, 7] (by decide)

/-- C7: the broadcast handler forwards the payload exactly when its playerId
field differs (JS strict inequality) from the listener's id; a payload whose
id equals the listener's id is never forwarded, for any payload shape α. -/
theorem opponentStateHandler_iff {α : Type} (selfId : Option String)
    (p : GameStatePayload α) :
    (opponentStateHandler selfId p = some p ↔ p.playerId ≠ selfId) ∧
    (p.playerId = selfId → opponentStateHandler selfId p = none) := by
  unfold opponentStateHandler
  by_cases hif : p.playerId ≠ selfId
  · rw [if_pos hif]
    exact ⟨⟨fun _ => hif, fun _ => rfl⟩, fun he => absurd he hif⟩
  · rw [if_neg hif]
    exact ⟨⟨fun hcontra => Option.noConfusion hcontra, fun hne => absurd hne hif⟩,
      fun _ => rfl⟩

/-- Witness for opponentStateHandler_iff: a self-originated payload is
dropped. -/
theorem opponentStateHandler_iff_witness :
    opponentStateHandler (some "me")
      ({ playerId := some "me", rest := (0 : Nat) } : GameStatePayload Nat) = none :=
  (opponentStateHandler_iff (some "me") { playerId := some "me", rest := (0 : Nat) }).2 rfl

/-- C8 counterexample: a waiting lobby is discovered and the membership insert
fails, yet findOrCreateLobby returns the lobby as a success, not a failure
result; the store failure is only logged. -/
theorem findOrCreateLobby_swallows_join_failure_cex :
    (findOrCreateLobby idleState (some "g") "snow" [sampleLobby]
      { lobbyInsert := Except.error StoreError.unavailable,
        membershipInsert := some StoreError.unavailable } [1, 2, 3, 4, 5, 6]).result =
      some sampleLobby := by
  decide

/-- C8 amended: when the waiting-lobby query finds a lobby and the membership
insert into it fails, findOrCreateLobby still returns the discovered lobby as
a success; the join failure is only written to the console log and is not
surfaced to the caller. -/
theorem findOrCreateLobby_join_failure_returns_lobby (s : MPState)
    (pid land : String) (lobby : LobbyRow) (rest : List LobbyRow)
    (store : StoreBehavior) (digits : List Nat) (e : StoreError)
    (he : store.membershipInsert = some e) :
    (findOrCreateLobby s (some pid) land (lobby :: rest) store digits).result =
        some lobby ∧
      (findOrCreateLobby s (some pid) land (lobby :: rest) store digits).log =
        ["Error joining lobby:"] := by
  simp [findOrCreateLobby, joinLobby, he]

/-- Witness for findOrCreateLobby_join_failure_returns_lobby at a concrete
failed join. -/
theorem findOrCreateLobby_join_failure_witness :
    (findOrCreateLobby idleState (some "g2") "snow" [sampleLobby]
      { lobbyInsert := Except.error StoreError.unavailable,
        membershipInsert := some StoreError.conflict } [1, 2, 3, 4, 5, 6]).result =
        some sampleLobby ∧
      (findOrCreateLobby idleState (some "g2") "snow" [sampleLobby]
        { lobbyInsert := Except.error StoreError.unavailable,
          membershipInsert := some StoreError.conflict } [1, 2, 3, 4, 5, 6]).log =
        ["Error joining lobby:"] :=
  findOrCreateLobby_join_failure_returns_lobby idleState "g2" "snow" sampleLobby []
    { lobbyInsert := Except.error StoreError.unavailable,
      membershipInsert := some StoreError.conflict } [1, 2, 3, 4, 5, 6]
    StoreError.conflict rfl

/-- C9 counterexample: on a join-code uniqueness Conflict from the lobby
insert, createLobby returns null after a single insert attempt — no code is
regenerated and no retry is issued. -/
theorem createLobby_conflict_no_retry_cex :
    (createLobby idleState (some "h") "snow" [1, 2, 3, 4, 5, 6, 7]
      { lobbyInsert := Except.error StoreError.conflict,
        membershipInsert := none }).result = none ∧
    (createLobby idleState (some "h") "snow" [1, 2, 3, 4, 5, 6, 7]
      { lobbyInsert := Except.error StoreError.conflict,
        membershipInsert := none }).writes.length = 1 := by
  decide

/-- C9 amended: createLobby issues exactly one lobby insert carrying the
single generated code; on any insert error, Conflict included, it logs and
returns null leaving the state untouched, without regenerating a code or
retrying. -/
theorem createLobby_single_attempt (s : MPState) (hid land : String)
    (digits : List Nat) (store : StoreBehavior) (e : StoreError)
    (he : store.lobbyInsert = Except.error e) :
    (createLobby s (some hid) land digits store).result = none ∧
    (createLobby s (some hid) land digits store).writes =
      [StoreWrite.insertLobby (generateLobbyCode digits) hid land Status.waiting] ∧
    (createLobby s (some hid) land digits store).state = s ∧
    (createLobby s (some hid) land digits store).log = ["Error creating lobby:"] := by
  simp [createLobby, he]

/-- Witness for createLobby_single_attempt at a concrete conflicting
insert. -/
theorem createLobby_single_attempt_witness :
    (createLobby idleState (some "h2") "desert" [4, 20, 11, 0, 9, 33, 2]
      { lobbyInsert := Except.error StoreError.conflict,
        membershipInsert := none }).result = none ∧
    (createLobby idleState (some "h2") "desert" [4, 20, 11, 0, 9, 33, 2]
      { lobbyInsert := Except.error StoreError.conflict,
        membershipInsert := none }).writes =
      [StoreWrite.insertLobby (generateLobbyCode [4, 20, 11, 0, 9, 33, 2]) "h2"
        "desert" Status.waiting] ∧
    (createLobby idleState (some "h2") "desert" [4, 20, 11, 0, 9, 33, 2]
      { lobbyInsert := Except.error StoreError.conflict,
        membershipInsert := none }).state = idleState ∧
    (createLobby idleState (some "h2") "desert" [4, 20, 11, 0, 9, 33, 2]
      { lobbyInsert := Except.error StoreError.conflict,
        membershipInsert := none }).log = ["Error creating lobby:"] :=
  createLobby_single_attempt idleState "h2" "desert" [4, 20, 11, 0, 9, 33, 2]
    { lobbyInsert := Except.error StoreError.conflict, membershipInsert := none }
    StoreError.conflict rfl

/-- C10: with an active lobby and a truthy playerId, toggleReady writes
is_ready equal to the negation of the cached snapshot's flag for that
participant and returns the written value; a participant absent from the
snapshot reads as not-ready, so both the written and the returned value are
true. -/
theorem toggleReady_spec (s : MPState) (l : LobbyRow) (pid : String)
    (h : s.currentLobby = some l) :
    toggleReady s (some pid) =
      (some (StoreWrite.updateReady l.id pid (!(cachedReady s pid))),
        !(cachedReady s pid)) ∧
    (s.lobbyPlayers.find? (fun p => p.player_id == pid) = none →
      toggleReady s (some pid) =
        (some (StoreWrite.updateReady l.id pid true), true)) := by
  constructor
  · simp [toggleReady, h]
  · intro habs
    simp [toggleReady, h, cachedReady, habs]

/-- Witness for toggleReady_spec: a participant absent from the cached
snapshot gets a true write and a true return. -/
theorem toggleReady_spec_witness :
    toggleReady guestState (some "x") =
      (some (StoreWrite.updateReady 1 "x" true), true) :=
  (toggleReady_spec guestState sampleLobby "x" rfl).2 (by decide)

end Multiplayer
